import Mathlib

/-!
Verification of the Profile Merge & System Proxy Guard Engine specification
of the clash-verge application, together with the Discord RPC settings
dialog (`src/components/setting/mods/discord-rpc-viewer.tsx`).

The merge engine, script sandbox, proxy state controller, guard loop and
profile store are specified in the design document but their code is not
part of the frontend sources shipped here; those components are modelled
from the specification text.  The Discord RPC dialog is embedded directly
from its TypeScript source.
-/

set_option maxRecDepth 2000

/-! ## Configuration documents and the merge algorithm -/

/-- Modelled from the spec: an entry of a named list collection inside a
configuration document (e.g. a proxy or a rule).  `item name payload`
carries the stable key (name) used for key-based merging; `delMark` is the
designated delete-all marker value. -/
inductive MItem where
  | item (name payload : String)
  | delMark
deriving DecidableEq, Repr

/-- Modelled from the spec: a value stored at a top-level key of a
configuration document: a scalar, a named list collection, or the
designated delete marker that removes a key entirely. -/
inductive CValue where
  | scalar (s : String)
  | coll (items : List MItem)
  | del
deriving DecidableEq, Repr

/-- Modelled from the spec: a parsed configuration document, an association
list of top-level keys to values. -/
abbrev Document := List (String × CValue)

/-- Stable key of a collection entry, when it has one. -/
def itemName : MItem → Option String
  | .item n _ => some n
  | .delMark => none

/-- Whether a collection holds an entry with the given stable key. -/
def hasName (n : String) (l : List MItem) : Bool :=
  l.any (fun i => itemName i = some n)

/-- First entry of a collection with the given stable key. -/
def findByName (n : String) (l : List MItem) : Option MItem :=
  l.find? (fun i => itemName i = some n)

/-- Modelled from the spec: merging a named list collection.  A delete-all
marker in the override clears the accumulated entries and keeps only the
override's own (non-marker) entries; otherwise entries are merged by stable
key when present — an override entry replaces the base entry with the same
name in place — and remaining override entries are appended positionally. -/
def mergeCollection (base ov : List MItem) : List MItem :=
  if ov.contains .delMark then
    ov.filter (fun i => i ≠ .delMark)
  else
    (base.map (fun b =>
      match itemName b with
      | some n => (findByName n ov).getD b
      | none => b))
    ++ ov.filter (fun o =>
      match itemName o with
      | some n => !(hasName n base)
      | none => true)

/-- Value stored at a top-level key of a document, if any. -/
def lookupKey (d : Document) (k : String) : Option CValue :=
  (d.find? (fun kv => kv.1 = k)).map (fun kv => kv.2)

/-- Modelled from the spec: deep structural merge of one override document
into the accumulator.  Keys present in the override replace the
corresponding accumulator key; keys absent in the override are untouched;
the delete marker removes a key entirely; collection-valued keys are merged
by stable key. -/
def mergeDoc (acc ov : Document) : Document :=
  (acc.filterMap (fun kv =>
    match lookupKey ov kv.1 with
    | none => some kv
    | some .del => none
    | some (.coll oitems) =>
        some (kv.1, .coll (mergeCollection
          (match kv.2 with
           | .coll bitems => bitems
           | _ => []) oitems))
    | some v => some (kv.1, v)))
  ++ (ov.filterMap (fun kv =>
    if lookupKey acc kv.1 = none then
      match kv.2 with
      | .del => none
      | .coll l => some (kv.1, .coll (mergeCollection [] l))
      | v => some (kv.1, v)
    else none))

/-! ## Byte-level serialization of an EffectiveConfig -/

/-- Serialization of a collection entry. -/
def serializeItem : MItem → String
  | .item n p => "(" ++ n ++ "=" ++ p ++ ")"
  | .delMark => "(DELETE)"

/-- Serialization of a top-level value. -/
def serializeValue : CValue → String
  | .scalar s => "s:" ++ s
  | .coll l => "c:[" ++ String.intercalate "," (l.map serializeItem) ++ "]"
  | .del => "DEL"

/-- Serialization of a whole document; byte-identity of two merges is
equality of this rendering. -/
def serializeDoc (d : Document) : String :=
  String.intercalate ";" (d.map (fun kv => kv.1 ++ ":" ++ serializeValue kv.2))

/-! ## ScriptSandbox -/

/-- Modelled from the spec: a user-supplied transformation script.  Its
wall-clock consumption is abstracted as a cost in budget units; its effect
on the input structure either returns a rewritten document or raises a
structured diagnostic. -/
structure Script where
  cost : Nat
  behavior : Document → Except String Document

/-- Modelled from the spec: the tagged result of a sandboxed run — every
outcome, including an internal script failure, is one of these variants and
never an uncaught fault. -/
inductive SandboxResult where
  | ok (d : Document)
  | scriptError (diag : String)
  | timeoutError
deriving DecidableEq, Repr

namespace ScriptSandbox

/-- Modelled from the spec: `ScriptSandbox.run` executes a script against
an input document under a wall-clock budget.  Exceeding the budget yields
`timeoutError`; a failure raised by the script is captured and converted to
`scriptError`; otherwise the rewritten document is returned. -/
def run (budget : Nat) (s : Script) (input : Document) : SandboxResult :=
  if budget < s.cost then
    .timeoutError
  else
    match s.behavior input with
    | .ok d => .ok d
    | .error diag => .scriptError diag

end ScriptSandbox

/-! ## MergeEngine -/

/-- Modelled from the spec: one entry of a merge chain after the base — an
override document or a script profile. -/
inductive ChainEntry where
  | override (d : Document)
  | script (s : Script)

/-- Modelled from the spec: a merge chain, exactly one base profile plus an
ordered list of override/script entries. -/
structure MergeChain where
  base : Document
  entries : List ChainEntry

/-- Modelled from the spec: the error taxonomy of a merge run. -/
inductive MergeError where
  | scriptError (diag : String)
  | timeoutError
  | validationError (path : String)
deriving DecidableEq, Repr

/-- Collection entries carry pairwise distinct stable keys. -/
def distinctNames : List MItem → Bool
  | [] => true
  | i :: rest =>
    (match itemName i with
     | some n => !(hasName n rest)
     | none => true) && distinctNames rest

/-- Top-level keys of a document are pairwise distinct and every named
collection is free of duplicate names. -/
def wellFormedDoc : Document → Bool
  | [] => true
  | (k, v) :: rest =>
    (lookupKey rest k).isNone
      && (match v with
          | .coll l => distinctNames l
          | _ => true)
      && wellFormedDoc rest

/-- First offending path of the post-merge structural validation: a missing
required top-level section, or a duplicate-name violation. -/
def firstViolation (required : List String) (d : Document) : Option String :=
  match required.find? (fun k => (lookupKey d k).isNone) with
  | some k => some k
  | none => if wellFormedDoc d then none else some "duplicate-name"

namespace MergeEngine

/-- Modelled from the spec: apply one chain entry to the accumulator — deep
structural merge for an override, a sandboxed run for a script, the latter
aborting the merge with `scriptError`/`timeoutError` on failure. -/
def applyEntry (budget : Nat) (acc : Document) (e : ChainEntry) :
    Except MergeError Document :=
  match e with
  | .override d => .ok (mergeDoc acc d)
  | .script s =>
    match ScriptSandbox.run budget s acc with
    | .ok d => .ok d
    | .scriptError diag => .error (.scriptError diag)
    | .timeoutError => .error .timeoutError

/-- Modelled from the spec: `merge` starts from the base profile's parsed
structure, applies each chain entry in order, and post-validates the result
against the minimal structural schema, failing with `validationError` and
the offending path otherwise. -/
def merge (budget : Nat) (required : List String) (c : MergeChain) :
    Except MergeError Document :=
  match c.entries.foldlM (applyEntry budget) c.base with
  | .error e => .error e
  | .ok d =>
    match firstViolation required d with
    | some p => .error (.validationError p)
    | none => .ok d

end MergeEngine

/-- Rendering of a merge outcome to bytes, for byte-identity comparison. -/
def serializeResult : Except MergeError Document → String
  | .ok d => "ok:" ++ serializeDoc d
  | .error _ => "error"

/-- Modelled from the spec: the engine's published state — the currently
active EffectiveConfig, if any. -/
structure EngineState where
  active : Option Document
deriving DecidableEq

/-- Modelled from the spec: run a merge and publish its result.  Only a
fully successful merge replaces the active EffectiveConfig; on any step
failure the previous state is returned untouched. -/
def publishMerge (st : EngineState) (budget : Nat) (required : List String)
    (c : MergeChain) : EngineState × Except MergeError Document :=
  match MergeEngine.merge budget required c with
  | .ok d => ({ active := some d }, .ok d)
  | .error e => (st, .error e)

/-! ## ProxyStateController -/

/-- Modelled from the spec: the process-wide proxy state singleton. -/
structure ProxyState where
  systemProxyEnabled : Bool
  tunEnabled : Bool
  guardEnabled : Bool
  lastAppliedConfigHash : Option Nat
  lastGuardCheckAt : Nat
  lastGuardResult : Option Bool
deriving DecidableEq

/-- Hash of an EffectiveConfig used for change detection, computed over its
serialized bytes. -/
def configHash (d : Document) : Nat :=
  (serializeDoc d).data.foldl (fun a c => a * 31 + c.toNat) 7

/-- Modelled from the spec: the outcome of an activation attempt. -/
inductive ActivationResult where
  | ok
  | activationError (diag : String)
deriving DecidableEq, Repr

namespace ProxyStateController

/-- Modelled from the spec: `activate` pushes the configuration to the
external core's reload endpoint, abstracted as `core`.  Re-running it with
a config whose hash equals `lastAppliedConfigHash` is a no-op that still
returns success; on core rejection the prior state is left untouched and
the core's diagnostic is surfaced; on success `lastAppliedConfigHash` is
updated. -/
def activate (st : ProxyState) (cfg : Document)
    (core : Document → Except String Unit) : ProxyState × ActivationResult :=
  if st.lastAppliedConfigHash = some (configHash cfg) then
    (st, .ok)
  else
    match core cfg with
    | .ok _ => ({ st with lastAppliedConfigHash := some (configHash cfg) }, .ok)
    | .error diag => (st, .activationError diag)

end ProxyStateController

/-! ## GuardLoop -/

/-- Modelled from the spec: the guard's per-flag reconciliation state — the
remaining cooldown ticks after a correction attempt, and the recorded
outcome of the last correction. -/
structure GuardState where
  cooldown : Nat
  lastGuardResult : Option Bool
deriving DecidableEq, Repr

/-- Modelled from the spec: one guard tick for one flag.  `period` is the
cooldown length in ticks and `drift` whether the observed OS state differed
from the intended state.  While cooling down no correction fires; on
observed drift outside a cooldown exactly one correction attempt fires,
recording its outcome and starting a cooldown. -/
def guardTick (period : Nat) (s : GuardState) (drift : Bool) :
    GuardState × Bool :=
  if 0 < s.cooldown then
    ({ s with cooldown := s.cooldown - 1 }, false)
  else if drift then
    ({ cooldown := period, lastGuardResult := some true }, true)
  else
    (s, false)

/-- Run of the guard over a sequence of drift observations, returning the
correction-fired flag of every tick. -/
def guardRun (period : Nat) (s : GuardState) : List Bool → List Bool
  | [] => []
  | d :: ds =>
    let step := guardTick period s d
    step.2 :: guardRun period step.1 ds

/-! ## ProfileStore -/

/-- Modelled from the spec: the kind of a stored profile. -/
inductive ProfileKind where
  | remote
  | localKind
  | mergeKind
  | scriptKind
deriving DecidableEq, Repr

/-- Modelled from the spec: a stored profile document with its fetch
metadata. -/
structure Profile where
  id : String
  kind : ProfileKind
  url : Option String
  content : Option String
  lastFetchedAt : Option Nat
  etag : Option String
deriving DecidableEq, Repr

/-- Modelled from the spec: `FetchError` covers both transport failure and
malformed fetched content. -/
inductive FetchError where
  | network
  | parseFailure
deriving DecidableEq, Repr

namespace ProfileStore

/-- Modelled from the spec: `refresh` re-fetches a remote profile's
content.  The transport outcome is `fetched`; `parse` is the profile
parser.  On network or parse failure it returns `FetchError` and the prior
profile is untouched; only a successfully parsed fetch replaces the
content. -/
def refresh (p : Profile) (now : Nat) (fetched : Except Unit String)
    (parse : String → Option Document) : Profile × Except FetchError Unit :=
  match fetched with
  | .error _ => (p, .error .network)
  | .ok raw =>
    match parse raw with
    | none => (p, .error .parseFailure)
    | some _ =>
      ({ p with content := some raw, lastFetchedAt := some now }, .ok ())

end ProfileStore

/-! ## Discord RPC settings dialog (embedded from
`src/components/setting/mods/discord-rpc-viewer.tsx`) -/

/-- The slice of the verge settings object the dialog reads and patches. -/
structure VergeConfig where
  discord_app_id : Option String
deriving DecidableEq, Repr

/-- A notice surfaced through `showNotice`. -/
inductive Notice where
  | errorNotice (msg : String)
  | successNotice (msg : String)
deriving DecidableEq, Repr

/-- Local component state of the dialog: the `open` and `appId` `useState`
hooks. -/
structure DialogState where
  dialogOpen : Bool
  appId : String
deriving DecidableEq, Repr

/-- Environment the dialog acts on: the stored verge settings and the
notices shown so far. -/
structure DialogEnv where
  verge : VergeConfig
  notices : List Notice
deriving DecidableEq, Repr

namespace DiscordRpcViewer

/-- The imperative-handle `open` entry point: `setOpen(true)` and
`setAppId(verge?.discord_app_id || "")`. -/
def openDialog (verge : VergeConfig) : DialogState :=
  { dialogOpen := true,
    appId := match verge.discord_app_id with
             | some s => if s = "" then "" else s
             | none => "" }

/-- The `onClose`/`onCancel` handlers of the dialog: `setOpen(false)` only;
the stored settings are not touched. -/
def dismiss (st : DialogState) (env : DialogEnv) : DialogState × DialogEnv :=
  ({ st with dialogOpen := false }, env)

/-- The text field's `onChange` handler: `setAppId(e.target.value)`. -/
def setAppId (st : DialogState) (s : String) : DialogState :=
  { st with appId := s }

/-- The patch value sent by `onSave`: `appId || undefined`, i.e. an empty
field clears the stored setting instead of storing an empty string. -/
def savePatch (appId : String) : Option String :=
  if appId = "" then none else some appId

/-- The `onSave` handler.  The outcome of `await patchVerge(...)` is
abstracted as `patchError` (`some msg` when it throws).  On success the
patch is applied and the dialog closed; on a throw the error is surfaced as
a notice and nothing else changes. -/
def onSave (st : DialogState) (env : DialogEnv) (patchError : Option String) :
    DialogState × DialogEnv :=
  match patchError with
  | some msg =>
    (st, { env with notices := env.notices ++ [.errorNotice msg] })
  | none =>
    ({ st with dialogOpen := false },
     { env with verge := { env.verge with discord_app_id := savePatch st.appId } })

end DiscordRpcViewer

/-! ## Helper lemmas -/

/-- While the remaining cooldown covers the whole observation window, no
correction fires. -/
theorem guardRun_count_zero (period : Nat) :
    ∀ (obs : List Bool) (s : GuardState), obs.length ≤ s.cooldown →
      (guardRun period s obs).count true = 0 := by
  intro obs
  induction obs with
  | nil => intro s _; simp [guardRun]
  | cons d ds ih =>
    intro s h
    have hpos : 0 < s.cooldown := by
      have : ds.length + 1 ≤ s.cooldown := by simpa using h
      omega
    simp only [guardRun, guardTick, if_pos hpos, List.count_cons]
    have hlen : ds.length ≤ s.cooldown - 1 := by
      have : ds.length + 1 ≤ s.cooldown := by simpa using h
      omega
    have hz := ih ⟨s.cooldown - 1, s.lastGuardResult⟩ hlen
    simp [hz]

/-- A tick that fires a correction leaves the full cooldown period behind
it. -/
theorem guardTick_fired_state (period : Nat) (s : GuardState) (d : Bool)
    (h : (guardTick period s d).2 = true) :
    (guardTick period s d).1 = ⟨period, some true⟩ := by
  unfold guardTick at h ⊢
  by_cases hc : 0 < s.cooldown
  · rw [if_pos hc] at h
    simp at h
  · rw [if_neg hc] at h ⊢
    cases d
    · simp at h
    · simp

/-! ## Claim theorems -/

/-- Claim C1: for every merge chain and every assignment of profile
contents to its entries, running `merge` twice on the identical chain with
identical profile contents produces byte-identical EffectiveConfig
documents — merge is a deterministic function of its inputs. -/
theorem merge_deterministic (budget : Nat) (required : List String)
    (c : MergeChain) :
    MergeEngine.merge budget required c = MergeEngine.merge budget required c
    ∧ serializeResult (MergeEngine.merge budget required c)
        = serializeResult (MergeEngine.merge budget required c) :=
  ⟨rfl, rfl⟩

/-- Claim C2: for every merge chain, if any step of `merge` fails (override
merge, script execution, or post-merge validation), no partial
EffectiveConfig is published and the previously active EffectiveConfig is
left unchanged. -/
theorem merge_failure_preserves_active (st : EngineState) (budget : Nat)
    (required : List String) (c : MergeChain) (e : MergeError)
    (h : MergeEngine.merge budget required c = .error e) :
    (publishMerge st budget required c).1 = st
    ∧ (publishMerge st budget required c).2 = .error e := by
  simp [publishMerge, h]

/-- Witness for C2: a chain whose script raises leaves a concrete active
EffectiveConfig untouched. -/
theorem merge_failure_preserves_active_witness :
    (publishMerge ⟨some [("mode", .scalar "rule")]⟩ 5 []
      ⟨[], [.script ⟨1, fun _ => .error "boom"⟩]⟩).1
      = ⟨some [("mode", .scalar "rule")]⟩ :=
  (merge_failure_preserves_active ⟨some [("mode", .scalar "rule")]⟩ 5 []
    ⟨[], [.script ⟨1, fun _ => .error "boom"⟩]⟩ (.scriptError "boom") rfl).1

/-- Claim C3: merging the base profile with proxies `[A, B]` and rules
`[r1]` with the override carrying proxies `[B2]` and the delete-all marker
for rules yields exactly proxies `[A, B2]` and empty rules: B is replaced
by its matching stable key, A is kept, and the rules collection is
cleared.  The same holds through the full engine `merge`. -/
theorem merge_scenario_delete_marker :
    mergeDoc
      [("proxies", .coll [.item "A" "a", .item "B" "b"]),
       ("rules", .coll [.item "r1" "r"])]
      [("proxies", .coll [.item "B" "b2"]), ("rules", .coll [.delMark])]
    = [("proxies", .coll [.item "A" "a", .item "B" "b2"]),
       ("rules", .coll [])]
    ∧ MergeEngine.merge 5 ["proxies", "rules"]
        ⟨[("proxies", .coll [.item "A" "a", .item "B" "b"]),
          ("rules", .coll [.item "r1" "r"])],
         [.override [("proxies", .coll [.item "B" "b2"]),
                     ("rules", .coll [.delMark])]]⟩
      = .ok [("proxies", .coll [.item "A" "a", .item "B" "b2"]),
             ("rules", .coll [])] := by
  constructor
  · decide
  · rfl

/-- Claim C4: for every EffectiveConfig whose hash equals the current
`lastAppliedConfigHash`, calling `activate` with that config is a no-op —
the proxy state, including `lastAppliedConfigHash`, is unchanged — and
still returns success. -/
theorem activate_idempotent (st : ProxyState) (cfg : Document)
    (core : Document → Except String Unit)
    (h : st.lastAppliedConfigHash = some (configHash cfg)) :
    ProxyStateController.activate st cfg core = (st, .ok) := by
  simp [ProxyStateController.activate, h]

/-- Witness for C4: activating a concrete already-applied config keeps the
state and succeeds. -/
theorem activate_idempotent_witness :
    ProxyStateController.activate
      ⟨false, false, false, some (configHash []), 0, none⟩ []
      (fun _ => .ok ())
    = (⟨false, false, false, some (configHash []), 0, none⟩, .ok) :=
  activate_idempotent ⟨false, false, false, some (configHash []), 0, none⟩ []
    (fun _ => .ok ()) rfl

/-- Claim C5: for every flag guarded by the GuardLoop, if external drift is
observed N times within a single cooldown window, exactly one correction
attempt fires in that window; and a correction attempt is always followed
by a cooldown before another correction for the same flag can trigger. -/
theorem guard_one_correction_per_window (period N : Nat) (hN : 0 < N)
    (hNw : N ≤ period + 1) :
    (guardRun period ⟨0, none⟩ (List.replicate N true)).count true = 1
    ∧ ∀ (s : GuardState) (d : Bool), (guardTick period s d).2 = true →
        ∀ obs : List Bool, obs.length ≤ period →
          (guardRun period (guardTick period s d).1 obs).count true = 0 := by
  constructor
  · obtain ⟨M, rfl⟩ : ∃ M, N = M + 1 := ⟨N - 1, by omega⟩
    have h1 : guardTick period ⟨0, none⟩ true = (⟨period, some true⟩, true) := by
      simp [guardTick]
    have hlen : (List.replicate M true).length ≤ period := by
      simp only [List.length_replicate]
      omega
    have hz : (guardRun period ⟨period, some true⟩ (List.replicate M true)).count true = 0 :=
      guardRun_count_zero period (List.replicate M true) ⟨period, some true⟩ hlen
    rw [List.replicate_succ]
    simp only [guardRun, h1]
    simp [List.count_cons, hz]
  · intro s d hf obs hlen
    rw [guardTick_fired_state period s d hf]
    exact guardRun_count_zero period obs ⟨period, some true⟩ hlen

/-- Witness for C5: two drift observations inside a three-tick cooldown
window fire exactly one correction. -/
theorem guard_one_correction_per_window_witness :
    (guardRun 3 ⟨0, none⟩ (List.replicate 2 true)).count true = 1 :=
  (guard_one_correction_per_window 3 2 (by decide) (by decide)).1

/-- Claim C6: for every script and input, `ScriptSandbox.run` returns a
tagged result: any internal failure raised by the script is captured and
converted to a script error and never propagates as an uncaught fault out
of the sandbox; exceeding the wall-clock budget returns the timeout error,
and only then. -/
theorem sandbox_captures_failures (budget : Nat) (s : Script)
    (input : Document) :
    ((∃ d, ScriptSandbox.run budget s input = .ok d)
      ∨ (∃ g, ScriptSandbox.run budget s input = .scriptError g)
      ∨ ScriptSandbox.run budget s input = .timeoutError)
    ∧ (∀ g, s.behavior input = .error g → s.cost ≤ budget →
        ScriptSandbox.run budget s input = .scriptError g)
    ∧ (budget < s.cost → ScriptSandbox.run budget s input = .timeoutError)
    ∧ (ScriptSandbox.run budget s input = .timeoutError → budget < s.cost) := by
  refine ⟨?_, ?_, ?_, ?_⟩
  · by_cases hb : budget < s.cost
    · right; right
      simp [ScriptSandbox.run, hb]
    · cases hbe : s.behavior input with
      | ok d =>
        left
        exact ⟨d, by simp [ScriptSandbox.run, hb, hbe]⟩
      | error g =>
        right; left
        exact ⟨g, by simp [ScriptSandbox.run, hb, hbe]⟩
  · intro g hg hc
    simp [ScriptSandbox.run, Nat.not_lt.mpr hc, hg]
  · intro hb
    simp [ScriptSandbox.run, hb]
  · intro ht
    by_cases hb : budget < s.cost
    · exact hb
    · cases hbe : s.behavior input <;> simp [ScriptSandbox.run, hb, hbe] at ht

/-- Witness for C6: a concrete raising script is converted to a script
error under a sufficient budget. -/
theorem sandbox_captures_failures_witness :
    ScriptSandbox.run 5 ⟨1, fun _ => .error "boom"⟩ [] = .scriptError "boom" :=
  (sandbox_captures_failures 5 ⟨1, fun _ => .error "boom"⟩ []).2.1 "boom" rfl
    (by decide)

/-- Claim C7: for every remote profile, if `refresh` encounters a network
or parse failure it returns a fetch error and the profile's prior content
is untouched; new content replaces old only after the fetched content
parses successfully. -/
theorem refresh_transactional (p : Profile) (now : Nat)
    (fetched : Except Unit String) (parse : String → Option Document) :
    (∀ u, fetched = .error u →
      ProfileStore.refresh p now fetched parse = (p, .error .network))
    ∧ (∀ raw, fetched = .ok raw → parse raw = none →
      ProfileStore.refresh p now fetched parse = (p, .error .parseFailure))
    ∧ (∀ raw d, fetched = .ok raw → parse raw = some d →
      ProfileStore.refresh p now fetched parse
        = ({ p with content := some raw, lastFetchedAt := some now }, .ok ())) := by
  refine ⟨?_, ?_, ?_⟩
  · intro u hu
    simp [ProfileStore.refresh, hu]
  · intro raw hraw hp
    simp [ProfileStore.refresh, hraw, hp]
  · intro raw d hraw hp
    simp [ProfileStore.refresh, hraw, hp]

/-- Witness for C7: a concrete network failure leaves a concrete profile
untouched and reports a fetch error. -/
theorem refresh_transactional_witness :
    ProfileStore.refresh ⟨"p1", .remote, some "u", some "old", none, none⟩ 9
      (.error ()) (fun _ => none)
    = (⟨"p1", .remote, some "u", some "old", none, none⟩, .error .network) :=
  (refresh_transactional ⟨"p1", .remote, some "u", some "old", none, none⟩ 9
    (.error ()) (fun _ => none)).1 () rfl

/-- Claim C8: in the Discord RPC dialog, saving with an empty app-id text
field patches `discord_app_id` to undefined — clearing the stored setting —
rather than storing an empty string; saving with a non-empty field stores
that exact string. -/
theorem onSave_patches_app_id (st : DialogState) (env : DialogEnv) :
    (st.appId = "" →
      (DiscordRpcViewer.onSave st env none).2.verge.discord_app_id = none)
    ∧ (st.appId ≠ "" →
      (DiscordRpcViewer.onSave st env none).2.verge.discord_app_id
        = some st.appId) := by
  constructor
  · intro h
    simp [DiscordRpcViewer.onSave, DiscordRpcViewer.savePatch, h]
  · intro h
    simp [DiscordRpcViewer.onSave, DiscordRpcViewer.savePatch, h]

/-- Witness for C8: an empty field clears the stored id while a non-empty
field stores it verbatim, at concrete dialog states. -/
theorem onSave_patches_app_id_witness :
    (DiscordRpcViewer.onSave ⟨true, ""⟩ ⟨⟨some "old"⟩, []⟩
      none).2.verge.discord_app_id = none
    ∧ (DiscordRpcViewer.onSave ⟨true, "12345"⟩ ⟨⟨some "old"⟩, []⟩
      none).2.verge.discord_app_id = some "12345" :=
  ⟨(onSave_patches_app_id ⟨true, ""⟩ ⟨⟨some "old"⟩, []⟩).1 rfl,
   (onSave_patches_app_id ⟨true, "12345"⟩ ⟨⟨some "old"⟩, []⟩).2 (by decide)⟩

/-- Claim C9: in the Discord RPC dialog, `onSave` closes the dialog only
when the settings patch succeeds; if `patchVerge` throws, the error is
surfaced as a notice, the stored settings are untouched, and the dialog
remains open (the whole component state is unchanged). -/
theorem onSave_closes_only_on_success (st : DialogState) (env : DialogEnv)
    (msg : String) :
    (DiscordRpcViewer.onSave st env (some msg)).1 = st
    ∧ (DiscordRpcViewer.onSave st env (some msg)).2.verge = env.verge
    ∧ (DiscordRpcViewer.onSave st env (some msg)).2.notices
        = env.notices ++ [.errorNotice msg]
    ∧ (DiscordRpcViewer.onSave st env none).1.dialogOpen = false :=
  ⟨rfl, rfl, rfl, rfl⟩

/-- Claim C10: closing or cancelling the Discord RPC dialog never invokes
the settings patch — for every sequence of edits typed into the app-id
field, dismissing without Save leaves the stored `discord_app_id`
unchanged — and `open()` re-initialises the field from the stored value,
with the empty string when unset. -/
theorem dismiss_never_patches (st : DialogState) (env : DialogEnv)
    (edits : List String) :
    (DiscordRpcViewer.dismiss (edits.foldl DiscordRpcViewer.setAppId st)
      env).2 = env
    ∧ (DiscordRpcViewer.dismiss (edits.foldl DiscordRpcViewer.setAppId st)
      env).1.dialogOpen = false
    ∧ (DiscordRpcViewer.openDialog env.verge).appId
        = (match env.verge.discord_app_id with
           | some s => s
           | none => "") := by
  refine ⟨rfl, rfl, ?_⟩
  cases h : env.verge.discord_app_id with
  | none => simp [DiscordRpcViewer.openDialog, h]
  | some s =>
    by_cases hs : s = ""
    · simp [DiscordRpcViewer.openDialog, h, hs]
    · simp [DiscordRpcViewer.openDialog, h, hs]
